import Mathlib

/-!
Shallow embedding of `backend/utils.py` (recipe-chatbot): the conversation
turn processor `get_agent_response`, the `SYSTEM_PROMPT` constant, and the
`MODEL_NAME` configuration value.  The external completion service
(`litellm.completion`) is modelled as an oracle parameter
`complete : String → List Message → Except ε Completion`; a raised Python
exception is an `Except.error`.  Reading the environment is modelled by an
explicit `env : String → Option String` parameter.
-/

/-- A chat message: a record with a `role` and a `content` field, mirroring
the Python dicts `{"role": ..., "content": ...}`. -/
structure Message where
  role : String
  content : String
deriving DecidableEq

/-- The `message` object inside one completion choice. -/
structure ChoiceMessage where
  content : String
deriving DecidableEq

/-- One completion choice, holding a message. -/
structure Choice where
  message : ChoiceMessage
deriving DecidableEq

/-- The completion-service response: `completion["choices"]` is a list of
choices. -/
structure Completion where
  choices : List Choice
deriving DecidableEq

/-- The failure universe of a call to `get_agent_response`: either the
external completion call raised (`raised e`, propagated unchanged), or the
response had an empty `choices` list so indexing `["choices"][0]` raised. -/
inductive AgentError (ε : Type) where
  | raised : ε → AgentError ε
  | noChoice : AgentError ε
deriving DecidableEq

/-- The fixed persona instruction, `SYSTEM_PROMPT` in `backend/utils.py`,
reproduced verbatim. -/
def SYSTEM_PROMPT : String :=
"\n    **Role & Goal**  \n    You are an expert chef and recipe curator for European home cooks. Provide **one well-known, existing recipe per reply** that can be prepared with ingredients easily found in a typical European supermarket or pantry (unless the user explicitly requests a specific dish or ingredient).\n\n    ---\n\n    ## Core Rules (NEVER BREAK THESE)\n    1. **No follow-up questions**: each response must contain a complete recipe.  \n    2. **Default assumptions** (unless the user states otherwise):  \n       * The user has **no food allergies or dietary restrictions**.  \n       * The user is in **Europe**. \n       * *Default to metric*, **but if the user explicitly supplies or asks for non-metric units (cups, °F, ounces)**, comply and echo those units.\n    3. **Ingredient scope & priority**\n        * **3a. Honor explicit user requests first.** If the user names a specific **dish** *or* **ingredient** (even if it is exotic in Europe—e.g., durian, kimchi, masala dosa), assume they can obtain it and provide the recipe without refusing or diverting.\n        * **3b. Otherwise, default to widely available European ingredients.** When the user is vague (“suggest a dinner”) or only lists common staples, pick classic recipes that use easy-to-find supermarket items.\n        * **3c. No invention.** Never invent entirely new dishes or add hard-to-find ingredients *unless* the user asked for them.\n        * **3d. Respect ingredient lists.** If the user provides a list, do not add extras beyond true staples (water, salt, pepper, plain oil, flour). If a key extra is absolutely essential, politely refuse instead of silently adding it.\n    4. Ensure all content is **safe, non-harmful, and food-safe** (e.g., no unsafe raw-egg dishes for vulnerable groups).  \n    5. Maintain **variety** across consecutive recipes; avoid repeating similar dishes. Be sure to gracefully handle food slang.\n    6. **Domain**: provide *food* recipes only. Politely refuse cocktail, pet-food, or medicinal requests. Be sure to gracefully handle food slang.\n    7. **Multiple-recipe requests**: always return exactly **one** recipe. If the user explicitly asks for several, explain the one-recipe policy and return the first recipe.\n    8. **Allergy / diet acknowledgement**: When the user states a restriction, explicitly confirm compliance in the description (e.g., “This dessert is **nut-free** as requested.”).\n    9. **Serving size fidelity**: If the user asks for a specific yield (e.g., pancakes for 10), scale ingredients and set **Serves: 10**; never down-scale.\n    10. Your answer must be in the language of the user\x27s query.\n    11. Your answer must follow the mandatory markdown output format.\n\n    ---\n\n    ## Mandatory Output Format (Markdown)\n    Replace the ALL-CAPS placeholders with actual values:\n\n    ```markdown\n    ## RECIPE NAME\n\n    SHORT ONE-SENTENCE DESCRIPTION.\n\n    **Serves:** NUMBER  \n    **Prep Time:** MINUTES min  \n    **Cook Time:** MINUTES min  \n    **Nutrition (per serving):** ENERGY kcal | PROTEIN g | CARBS g | FAT g\n\n    ### Ingredients\n    * INGREDIENT – QUANTITY UNIT\n    * INGREDIENT – QUANTITY UNIT\n    * …\n\n    ### Instructions\n    1. STEP ONE\n    2. STEP TWO\n    3. …\n\n    ### Tips\n    * OPTIONAL TIP 1\n    * OPTIONAL TIP 2\n    ```\n\n    Keep instructions clear and concise, yet descriptive. Use the exact Markdown structure shown above.\n\n    ---\n\n    # Few-shot Example\n    ## Spaghetti Aglio e Olio\n\n    A classic Italian pantry pasta of garlic-infused olive oil and chilli tossed with spaghetti.\n\n    **Serves:** 2\n    **Prep Time:** 5 min\n    **Cook Time:** 10 min\n    **Nutrition (per serving):** 520 kcal | 15 g protein | 70 g carbs | 20 g fat\n\n    ### Ingredients\n    * Spaghetti – 200 g\n    * Extra-virgin olive oil – 30 ml\n    * Garlic, thinly sliced – 3 cloves\n    * Chilli flakes – 1 g\n    * Fresh parsley, chopped – 10 g\n    * Salt – 2 g\n    * Black pepper – 1 g\n\n    ### Instructions\n    1. Bring a large pot of salted water to a boil and cook the spaghetti until al dente (about 8 min).\n    2. Meanwhile, heat the olive oil in a skillet over medium heat. Add garlic and chilli flakes; sauté 1-2 min until fragrant but not browned.\n    3. Drain spaghetti, reserving 60 ml of pasta water. Add spaghetti to the skillet with the reserved water and toss for 1 min.\n    4. Season with salt and pepper, sprinkle with parsley, and toss again until the sauce lightly coats the pasta.\n    5. Serve immediately.\n\n    ### Tips\n    * Warm the serving bowls to keep the pasta hot.\n    * Adjust chilli to taste; omit for a mild version.\n    "

/-- `MODEL_NAME = os.environ.get("MODEL_NAME", "gpt-4o-mini")`, with the
environment passed explicitly. -/
def MODEL_NAME (env : String → Option String) : String :=
  (env "MODEL_NAME").getD "gpt-4o-mini"

/-- Python `str.strip()`: remove leading and trailing whitespace. -/
def pyStrip (s : String) : String :=
  String.mk (((s.toList.dropWhile Char.isWhitespace).reverse.dropWhile Char.isWhitespace).reverse)

/-- The effective request sequence computed at the top of
`get_agent_response`:
`if not messages or messages[0]["role"] != "system":
   current_messages = [{"role": "system", "content": SYSTEM_PROMPT}] + messages
 else: current_messages = messages`. -/
def effective_messages (messages : List Message) : List Message :=
  match messages with
  | [] => [⟨"system", SYSTEM_PROMPT⟩]
  | m :: _ =>
      if m.role ≠ "system" then ⟨"system", SYSTEM_PROMPT⟩ :: messages
      else messages

/-- `get_agent_response(messages)` from `backend/utils.py`: compute the
effective sequence, call the completion service with `MODEL_NAME` and the
full sequence, take the first choice, strip its content, and append it as an
assistant message. -/
def get_agent_response {ε : Type} (env : String → Option String)
    (complete : String → List Message → Except ε Completion)
    (messages : List Message) : Except (AgentError ε) (List Message) :=
  let current_messages := effective_messages messages
  match complete (MODEL_NAME env) current_messages with
  | Except.error e => Except.error (AgentError.raised e)
  | Except.ok completion =>
      match completion.choices with
      | [] => Except.error AgentError.noChoice
      | choice :: _ =>
          let assistant_reply_content := pyStrip choice.message.content
          Except.ok (current_messages ++
            [⟨"assistant", assistant_reply_content⟩])

/-- If the history is empty or its first message is not a system message,
the persona message is prepended. -/
theorem effective_messages_inject (history : List Message)
    (h : ∀ m, history.head? = some m → m.role ≠ "system") :
    effective_messages history = ⟨"system", SYSTEM_PROMPT⟩ :: history := by
  cases history with
  | nil => rfl
  | cons m tl =>
      have hm : m.role ≠ "system" := h m rfl
      simp [effective_messages, hm]

/-- If the first message has role `system`, the history is used verbatim. -/
theorem effective_messages_verbatim (m : Message) (tl : List Message)
    (h : m.role = "system") :
    effective_messages (m :: tl) = m :: tl := by
  simp [effective_messages, h]

/-- The effective sequence is the history itself or the history with the
persona message prepended. -/
theorem effective_messages_cases (history : List Message) :
    effective_messages history = history ∨
    effective_messages history = ⟨"system", SYSTEM_PROMPT⟩ :: history := by
  cases history with
  | nil => exact Or.inr rfl
  | cons m tl =>
      by_cases hm : m.role = "system"
      · exact Or.inl (effective_messages_verbatim m tl hm)
      · exact Or.inr (effective_messages_inject (m :: tl) (by intro x hx; cases hx; exact hm))

/-- The effective sequence is never empty and always starts with a message
whose role is `system`. -/
theorem effective_messages_head (history : List Message) :
    ∃ m tl, effective_messages history = m :: tl ∧ m.role = "system" := by
  cases history with
  | nil => exact ⟨⟨"system", SYSTEM_PROMPT⟩, [], rfl, rfl⟩
  | cons m tl =>
      by_cases hm : m.role = "system"
      · exact ⟨m, tl, effective_messages_verbatim m tl hm, hm⟩
      · refine ⟨⟨"system", SYSTEM_PROMPT⟩, m :: tl, ?_, rfl⟩
        exact effective_messages_inject (m :: tl) (by intro x hx; cases hx; exact hm)

/-- Success characterisation of `get_agent_response`: it returns `ok out`
exactly when the completion call succeeded with a nonempty choice list, and
then `out` is the effective sequence plus one stripped assistant message. -/
theorem get_agent_response_ok_iff {ε : Type} (env : String → Option String)
    (complete : String → List Message → Except ε Completion)
    (history out : List Message) :
    get_agent_response env complete history = Except.ok out ↔
      ∃ comp choice rest,
        complete (MODEL_NAME env) (effective_messages history) = Except.ok comp ∧
        comp.choices = choice :: rest ∧
        out = effective_messages history ++
          [⟨"assistant", pyStrip choice.message.content⟩] := by
  unfold get_agent_response
  cases hc : complete (MODEL_NAME env) (effective_messages history) with
  | error e => simp [hc]
  | ok comp =>
      cases hch : comp.choices with
      | nil => simp [hc, hch]
      | cons choice rest => simp [hc, hch, eq_comm]

/-- A concrete environment with no variables set, for instantiations. -/
def demoEnv : String → Option String := fun _ => none

/-- A concrete completion oracle that always succeeds with a single choice
whose message content is `reply`. -/
def demoComplete (reply : String) : String → List Message → Except Unit Completion :=
  fun _ _ => Except.ok ⟨[⟨⟨reply⟩⟩]⟩

/-- A concrete completion oracle that always raises the error "boom". -/
def demoFail : String → List Message → Except String Completion :=
  fun _ _ => Except.error "boom"

/-- A concrete completion oracle that always answers with an empty choice
list, so the first choice cannot be extracted. -/
def demoEmpty : String → List Message → Except Unit Completion :=
  fun _ _ => Except.ok ⟨[]⟩

/-- Claim C1: for every history that is empty or whose first element's role
is not `system`, the effective request sequence is exactly one synthesized
system message carrying `SYSTEM_PROMPT` prepended to the unchanged history;
in particular the result's first element is that system message. -/
theorem persona_injected_when_no_leading_system (history : List Message)
    (h : ∀ m, history.head? = some m → m.role ≠ "system") :
    effective_messages history = ⟨"system", SYSTEM_PROMPT⟩ :: history ∧
    (effective_messages history).head? = some ⟨"system", SYSTEM_PROMPT⟩ := by
  have he := effective_messages_inject history h
  exact ⟨he, by rw [he]; rfl⟩

/-- Witness for C1 at the concrete history `[{user, "hi"}]`. -/
theorem persona_injected_when_no_leading_system_witness :
    effective_messages [⟨"user", "hi"⟩] =
      ⟨"system", SYSTEM_PROMPT⟩ :: [⟨"user", "hi"⟩] ∧
    (effective_messages [⟨"user", "hi"⟩]).head? = some ⟨"system", SYSTEM_PROMPT⟩ :=
  persona_injected_when_no_leading_system [⟨"user", "hi"⟩]
    (by intro m hm; cases hm; decide)

/-- Claim C2: for every non-empty history whose first element has role
`system`, the history is used verbatim as the effective request sequence:
the caller's leading system message stays the unchanged first element and
the persona instruction is not prepended or substituted. -/
theorem caller_system_message_used_verbatim (m : Message) (tl : List Message)
    (h : m.role = "system") :
    effective_messages (m :: tl) = m :: tl ∧
    (effective_messages (m :: tl)).head? = some m := by
  have he := effective_messages_verbatim m tl h
  exact ⟨he, by rw [he]; rfl⟩

/-- Witness for C2 at `[{system, "custom"}, {user, "hi"}]`, whose system
content differs from the persona instruction. -/
theorem caller_system_message_used_verbatim_witness :
    (effective_messages [⟨"system", "custom"⟩, ⟨"user", "hi"⟩] =
      [⟨"system", "custom"⟩, ⟨"user", "hi"⟩] ∧
    (effective_messages [⟨"system", "custom"⟩, ⟨"user", "hi"⟩]).head? =
      some ⟨"system", "custom"⟩) ∧
    "custom" ≠ SYSTEM_PROMPT :=
  ⟨caller_system_message_used_verbatim ⟨"system", "custom"⟩ [⟨"user", "hi"⟩] rfl,
   by decide⟩

/-- Claim C5: on success the appended assistant content is the first
completion choice's content with leading and trailing whitespace stripped. -/
theorem reply_is_stripped_first_choice {ε : Type} (env : String → Option String)
    (complete : String → List Message → Except ε Completion)
    (history : List Message) (comp : Completion) (choice : Choice) (rest : List Choice)
    (hc : complete (MODEL_NAME env) (effective_messages history) = Except.ok comp)
    (hch : comp.choices = choice :: rest) :
    get_agent_response env complete history =
      Except.ok (effective_messages history ++
        [⟨"assistant", pyStrip choice.message.content⟩]) := by
  rw [get_agent_response_ok_iff]
  exact ⟨comp, choice, rest, hc, hch, rfl⟩

/-- Witness for C5: the service returns "  Hello there  \n" and the appended
content is exactly "Hello there". -/
theorem reply_is_stripped_first_choice_witness :
    get_agent_response demoEnv (demoComplete "  Hello there  \n") [⟨"user", "hi"⟩] =
      Except.ok (effective_messages [⟨"user", "hi"⟩] ++
        [⟨"assistant", pyStrip "  Hello there  \n"⟩]) ∧
    pyStrip "  Hello there  \n" = "Hello there" :=
  ⟨reply_is_stripped_first_choice demoEnv (demoComplete "  Hello there  \n")
      [⟨"user", "hi"⟩] ⟨[⟨⟨"  Hello there  \n"⟩⟩]⟩ ⟨⟨"  Hello there  \n"⟩⟩ [] rfl rfl,
   rfl⟩

/-- Claim C6: if the external completion call fails — it raises an error, or
it returns a response with no extractable first choice — then
`get_agent_response` fails too: a raised error `e` is propagated carrying
the same `e` unchanged, an empty choice list fails as `noChoice` (the
uncaught indexing error), and in either case no result history is
produced. -/
theorem failure_propagates_unchanged {ε : Type} (env : String → Option String)
    (complete : String → List Message → Except ε Completion)
    (history : List Message) :
    (∀ e, complete (MODEL_NAME env) (effective_messages history) = Except.error e →
      get_agent_response env complete history = Except.error (AgentError.raised e) ∧
      ∀ out, get_agent_response env complete history ≠ Except.ok out) ∧
    (∀ comp, complete (MODEL_NAME env) (effective_messages history) = Except.ok comp →
      comp.choices = [] →
      get_agent_response env complete history = Except.error AgentError.noChoice ∧
      ∀ out, get_agent_response env complete history ≠ Except.ok out) := by
  constructor
  · intro e he
    have h1 : get_agent_response env complete history =
        Except.error (AgentError.raised e) := by
      unfold get_agent_response
      simp [he]
    refine ⟨h1, ?_⟩
    intro out hout
    rw [h1] at hout
    exact absurd hout (by simp)
  · intro comp hc hch
    have h1 : get_agent_response env complete history =
        Except.error AgentError.noChoice := by
      unfold get_agent_response
      simp [hc, hch]
    refine ⟨h1, ?_⟩
    intro out hout
    rw [h1] at hout
    exact absurd hout (by simp)

/-- Witness for C6 exercising both failure modes on the empty history: an
oracle that raises "boom", and an oracle that answers with no choices. -/
theorem failure_propagates_unchanged_witness :
    (get_agent_response demoEnv demoFail [] = Except.error (AgentError.raised "boom") ∧
     get_agent_response demoEnv demoFail [] ≠ Except.ok []) ∧
    (get_agent_response demoEnv demoEmpty [] = Except.error AgentError.noChoice ∧
     get_agent_response demoEnv demoEmpty [] ≠ Except.ok []) :=
  ⟨⟨((failure_propagates_unchanged demoEnv demoFail []).1 "boom" rfl).1,
    ((failure_propagates_unchanged demoEnv demoFail []).1 "boom" rfl).2 []⟩,
   ⟨((failure_propagates_unchanged demoEnv demoEmpty []).2 ⟨[]⟩ rfl rfl).1,
    ((failure_propagates_unchanged demoEnv demoEmpty []).2 ⟨[]⟩ rfl rfl).2 []⟩⟩

/-- Claim C3: on success the returned sequence is exactly the effective
request sequence followed by one appended assistant message; the effective
sequence itself is the input history with at most one prepended persona
message, so every input element appears unchanged and in order. -/
theorem result_is_effective_plus_one_reply {ε : Type} (env : String → Option String)
    (complete : String → List Message → Except ε Completion)
    (history out : List Message)
    (h : get_agent_response env complete history = Except.ok out) :
    (∃ c, out = effective_messages history ++ [⟨"assistant", c⟩]) ∧
    (effective_messages history = history ∨
     effective_messages history = ⟨"system", SYSTEM_PROMPT⟩ :: history) := by
  obtain ⟨comp, choice, rest, hc, hch, hout⟩ :=
    (get_agent_response_ok_iff env complete history out).mp h
  exact ⟨⟨pyStrip choice.message.content, hout⟩, effective_messages_cases history⟩

/-- Witness for C3 at the concrete history `[{user, "hi"}]`. -/
theorem result_is_effective_plus_one_reply_witness :
    (∃ c, ([⟨"system", SYSTEM_PROMPT⟩, ⟨"user", "hi"⟩, ⟨"assistant", "ok"⟩] : List Message) =
      effective_messages [⟨"user", "hi"⟩] ++ [⟨"assistant", c⟩]) ∧
    (effective_messages [⟨"user", "hi"⟩] = [⟨"user", "hi"⟩] ∨
     effective_messages [⟨"user", "hi"⟩] =
       ⟨"system", SYSTEM_PROMPT⟩ :: [⟨"user", "hi"⟩]) :=
  result_is_effective_plus_one_reply demoEnv (demoComplete "ok") [⟨"user", "hi"⟩]
    [⟨"system", SYSTEM_PROMPT⟩, ⟨"user", "hi"⟩, ⟨"assistant", "ok"⟩] rfl

/-- Claim C4: on success the output length is the input length plus one when
the first input message has role `system`, and plus two when the history is
empty or starts with a non-system role. -/
theorem append_only_growth {ε : Type} (env : String → Option String)
    (complete : String → List Message → Except ε Completion)
    (history out : List Message)
    (h : get_agent_response env complete history = Except.ok out) :
    (∀ m, history.head? = some m → m.role = "system" →
      out.length = history.length + 1) ∧
    ((∀ m, history.head? = some m → m.role ≠ "system") →
      out.length = history.length + 2) := by
  obtain ⟨comp, choice, rest, hc, hch, hout⟩ :=
    (get_agent_response_ok_iff env complete history out).mp h
  constructor
  · intro m hm hrole
    cases history with
    | nil => cases hm
    | cons m0 tl =>
        simp only [List.head?_cons, Option.some.injEq] at hm
        subst hm
        rw [hout, effective_messages_verbatim m0 tl hrole]
        simp
  · intro hns
    rw [hout, effective_messages_inject history hns]
    simp

/-- Witness for C4: length 1 history grows to 3 with injection, length 2
history with a leading system message grows to 3. -/
theorem append_only_growth_witness :
    ([⟨"system", SYSTEM_PROMPT⟩, ⟨"user", "hi"⟩, ⟨"assistant", "ok"⟩] : List Message).length =
      ([⟨"user", "hi"⟩] : List Message).length + 2 ∧
    ([⟨"system", "custom"⟩, ⟨"user", "hi"⟩, ⟨"assistant", "ok"⟩] : List Message).length =
      ([⟨"system", "custom"⟩, ⟨"user", "hi"⟩] : List Message).length + 1 :=
  ⟨(append_only_growth demoEnv (demoComplete "ok") [⟨"user", "hi"⟩]
      [⟨"system", SYSTEM_PROMPT⟩, ⟨"user", "hi"⟩, ⟨"assistant", "ok"⟩] rfl).2
      (by intro m hm; cases hm; decide),
   (append_only_growth demoEnv (demoComplete "ok")
      [⟨"system", "custom"⟩, ⟨"user", "hi"⟩]
      [⟨"system", "custom"⟩, ⟨"user", "hi"⟩, ⟨"assistant", "ok"⟩] rfl).1
      ⟨"system", "custom"⟩ rfl rfl⟩

/-- Claim C7: feeding a successful output back in never injects a second
system message: the second call uses that output verbatim as its effective
sequence, and its own successful output only appends one assistant message,
leaving the number of system messages unchanged. -/
theorem no_double_injection_on_second_call {ε ε₂ : Type}
    (env env₂ : String → Option String)
    (complete : String → List Message → Except ε Completion)
    (complete₂ : String → List Message → Except ε₂ Completion)
    (history out out₂ : List Message)
    (h₁ : get_agent_response env complete history = Except.ok out)
    (h₂ : get_agent_response env₂ complete₂ out = Except.ok out₂) :
    effective_messages out = out ∧
    ∃ c, out₂ = out ++ [⟨"assistant", c⟩] ∧
      out₂.countP (fun m => m.role == "system") =
        out.countP (fun m => m.role == "system") := by
  obtain ⟨comp, choice, rest, hc, hch, hout⟩ :=
    (get_agent_response_ok_iff env complete history out).mp h₁
  obtain ⟨m, tl, heff, hrole⟩ := effective_messages_head history
  have hverb : effective_messages out = out := by
    rw [hout, heff]
    exact effective_messages_verbatim m _ hrole
  obtain ⟨comp₂, choice₂, rest₂, hc₂, hch₂, hout₂⟩ :=
    (get_agent_response_ok_iff env₂ complete₂ out out₂).mp h₂
  rw [hverb] at hout₂
  refine ⟨hverb, pyStrip choice₂.message.content, hout₂, ?_⟩
  rw [hout₂]
  simp [List.countP_append, List.countP_cons]

/-- Witness for C7: two successive calls starting from the empty history. -/
theorem no_double_injection_on_second_call_witness :
    effective_messages [⟨"system", SYSTEM_PROMPT⟩, ⟨"assistant", "ok"⟩] =
      [⟨"system", SYSTEM_PROMPT⟩, ⟨"assistant", "ok"⟩] ∧
    ∃ c, ([⟨"system", SYSTEM_PROMPT⟩, ⟨"assistant", "ok"⟩, ⟨"assistant", "ok"⟩] : List Message) =
        [⟨"system", SYSTEM_PROMPT⟩, ⟨"assistant", "ok"⟩] ++ [⟨"assistant", c⟩] ∧
      ([⟨"system", SYSTEM_PROMPT⟩, ⟨"assistant", "ok"⟩, ⟨"assistant", "ok"⟩] : List Message).countP
          (fun m => m.role == "system") =
        ([⟨"system", SYSTEM_PROMPT⟩, ⟨"assistant", "ok"⟩] : List Message).countP
          (fun m => m.role == "system") :=
  no_double_injection_on_second_call demoEnv demoEnv
    (demoComplete "ok") (demoComplete "ok") []
    [⟨"system", SYSTEM_PROMPT⟩, ⟨"assistant", "ok"⟩]
    [⟨"system", SYSTEM_PROMPT⟩, ⟨"assistant", "ok"⟩, ⟨"assistant", "ok"⟩] rfl rfl

/-- Claim C9: the model identifier equals the MODEL_NAME environment variable
when set and the hardcoded default "gpt-4o-mini" otherwise, and
`get_agent_response` consults the completion oracle only at this one
identifier. -/
theorem model_identifier_from_environment (env : String → Option String) :
    (∀ v, env "MODEL_NAME" = some v → MODEL_NAME env = v) ∧
    (env "MODEL_NAME" = none → MODEL_NAME env = "gpt-4o-mini") ∧
    (∀ (ε : Type) (c₁ c₂ : String → List Message → Except ε Completion)
        (history : List Message),
      c₁ (MODEL_NAME env) = c₂ (MODEL_NAME env) →
      get_agent_response env c₁ history = get_agent_response env c₂ history) := by
  refine ⟨?_, ?_, ?_⟩
  · intro v hv
    simp [hv, MODEL_NAME]
  · intro hv
    simp [hv, MODEL_NAME]
  · intro ε c₁ c₂ history hc
    unfold get_agent_response
    rw [hc]

/-- Witness for C9: a set variable is used, an unset one falls back to the
default, and two oracles agreeing at the identifier give equal results. -/
theorem model_identifier_from_environment_witness :
    MODEL_NAME (fun _ => some "m1") = "m1" ∧
    MODEL_NAME demoEnv = "gpt-4o-mini" ∧
    get_agent_response demoEnv (demoComplete "ok") [] =
      get_agent_response demoEnv (demoComplete "ok") [] :=
  ⟨(model_identifier_from_environment (fun _ => some "m1")).1 "m1" rfl,
   (model_identifier_from_environment demoEnv).2.1 rfl,
   (model_identifier_from_environment demoEnv).2.2 Unit
     (demoComplete "ok") (demoComplete "ok") [] rfl⟩

/-- Claim C10: every successful output starts with a message of role
`system` and ends with a message of role `assistant`, for all inputs,
including those starting with non-system or differently cased roles. -/
theorem output_starts_system_ends_assistant {ε : Type} (env : String → Option String)
    (complete : String → List Message → Except ε Completion)
    (history out : List Message)
    (h : get_agent_response env complete history = Except.ok out) :
    (∃ m tl, out = m :: tl ∧ m.role = "system") ∧
    (∃ m, out.getLast? = some m ∧ m.role = "assistant") := by
  obtain ⟨comp, choice, rest, hc, hch, hout⟩ :=
    (get_agent_response_ok_iff env complete history out).mp h
  obtain ⟨m, tl, heff, hrole⟩ := effective_messages_head history
  constructor
  · refine ⟨m, tl ++ [⟨"assistant", pyStrip choice.message.content⟩], ?_, hrole⟩
    rw [hout, heff]
    rfl
  · refine ⟨⟨"assistant", pyStrip choice.message.content⟩, ?_, rfl⟩
    rw [hout]
    simp

/-- Witness for C10 at a history whose first role is `System` (wrong case):
a lowercase `system` message is still injected in front. -/
theorem output_starts_system_ends_assistant_witness :
    (∃ m tl, ([⟨"system", SYSTEM_PROMPT⟩, ⟨"System", "x"⟩, ⟨"assistant", "ok"⟩] : List Message) =
        m :: tl ∧ m.role = "system") ∧
    (∃ m, ([⟨"system", SYSTEM_PROMPT⟩, ⟨"System", "x"⟩, ⟨"assistant", "ok"⟩] : List Message).getLast? =
        some m ∧ m.role = "assistant") :=
  output_starts_system_ends_assistant demoEnv (demoComplete "ok") [⟨"System", "x"⟩]
    [⟨"system", SYSTEM_PROMPT⟩, ⟨"System", "x"⟩, ⟨"assistant", "ok"⟩] rfl
